import Mathlib

/-!
Shallow embedding of `lib/spack/spack/util/s3.py` (spack).

The module has three functions:
  * `get_s3_session(url, method)` — selects the configured mirror whose
    intent-specific URL is the longest string prefix of the target URL,
    derives connection parameters, constructs a client (unsigned when the
    session has no credentials) and caches it per `(mirror name, method)`.
  * `_parse_s3_endpoint_url(endpoint_url)` — prepends `https://` when
    `urllib.parse.urlparse` detects no scheme.
  * `get_mirror_s3_connection_info(mirror, method)` — derives the session
    keyword arguments (token / access pair / profile) and the client
    keyword arguments (TLS verification flag, endpoint URL).

External collaborators are modelled explicitly:
  * the mirror collection is a list of `(name, Mirror)` pairs in iteration
    order (Python dicts preserve insertion order);
  * `boto3.Session(...).get_credentials()` is an opaque boolean function of
    the session parameters, carried in the environment `Env`;
  * `urllib.parse.urlsplit` scheme detection is modelled after CPython 3.11
    (`Lib/urllib/parse.py`): tab/CR/LF are removed, then `url[:i]` for the
    first `:` at `i > 0` is a scheme iff its first character is an ASCII
    letter and all its characters are in `scheme_chars`;
  * Python's builtin `max(xs, key=f)` returns the first maximal element.
-/

set_option autoImplicit false

namespace Spack.S3

/-- Python truthiness of a value that is either `None` or a string:
`None` and the empty string are falsy. -/
def truthy : Option String → Bool
  | none => false
  | some s => s ≠ ""

/-- Python `a or b` for optional strings: `a` when truthy, else `b`. -/
def pyOr (a b : Option String) : Option String :=
  if truthy a then a else b

/-- Python `url_str.startswith(pre)`. -/
def pyStartsWith (s pre : String) : Bool :=
  pre.toList.isPrefixOf s.toList

/-- Models Python's builtin `max(xs, key=f)`: scans left to right and
replaces the current element only on a strictly greater key, so the first
maximal element is returned; `none` on the empty list (`max` raises). -/
def pythonMaxBy {α : Type} (f : α → Nat) : List α → Option α
  | [] => none
  | x :: xs => some (xs.foldl (fun acc y => if f acc < f y then y else acc) x)

/-- A configured mirror entry (`spack.mirror.Mirror`): fetch/push URLs and
the per-method accessors used by `get_mirror_s3_connection_info`. -/
structure Mirror where
  fetch_url : String
  push_url : String
  get_access_token : String → Option String
  get_access_pair : String → Option (String × String)
  get_profile : String → Option String
  get_endpoint_url : String → Option String

/-- `mirror.fetch_url if method == "fetch" else mirror.push_url`. -/
def get_mirror_url (method : String) (m : Mirror) : String :=
  if method = "fetch" then m.fetch_url else m.push_url

/-- The `s3_connection` dict passed to `boto3.Session`; `none` means the
key is absent from the dict. -/
structure S3Connection where
  aws_session_token : Option String := none
  aws_access_key_id : Option String := none
  aws_secret_access_key : Option String := none
  profile_name : Option String := none
deriving DecidableEq

/-- The `s3_client_args` dict passed to `session.client("s3", ...)`;
`config_unsigned` records `config=Config(signature_version=UNSIGNED)`. -/
structure S3ClientArgs where
  use_ssl : Bool
  endpoint_url : Option String := none
  config_unsigned : Bool := false
deriving DecidableEq

/-- The constructed s3 client, identified by everything `get_s3_session`
passes to `Session(**s3_connection).client("s3", **s3_client_args)`. -/
structure Client where
  s3_connection : S3Connection
  s3_client_args : S3ClientArgs
deriving DecidableEq

/-- The ambient state read by the module: the configured mirror collection
(in iteration order), `spack.config.get("config:verify_ssl")`, the
`S3_ENDPOINT_URL` environment variable, and the opaque boto3 credential
resolution `Session(**conn).get_credentials()` as a boolean predicate. -/
structure Env where
  mirrors : List (String × Mirror)
  verify_ssl : Bool
  s3_endpoint_url_env : Option String
  get_credentials : S3Connection → Bool

/-- CPython 3.11 `urllib.parse.scheme_chars`: ASCII letters, digits,
`+`, `-`, `.`. -/
def isSchemeChar (c : Char) : Bool :=
  c.isAlpha || c.isDigit || c = '+' || c = '-' || c = '.'

/-- CPython `_UNSAFE_URL_BYTES_TO_REMOVE`: tab, CR, LF. -/
def isUnsafeUrlByte (c : Char) : Bool :=
  c = '\t' || c = '\r' || c = '\n'

/-- The WHATWG removal step at the top of `urlsplit`. -/
def removeUnsafeBytes (s : String) : String :=
  String.mk (s.toList.filter (fun c => !isUnsafeUrlByte c))

/-- Split a character list at the first `:`; `none` when there is no `:`
(`url.find(':')` returning `-1`). -/
def splitAtColon : List Char → Option (List Char × List Char)
  | [] => none
  | c :: cs =>
    if c = ':' then some ([], cs)
    else
      match splitAtColon cs with
      | none => none
      | some (pre, post) => some (c :: pre, post)

/-- The scheme component computed by CPython 3.11 `urlsplit(url, scheme="")`:
after removing unsafe bytes, `url[:i]` for the first `:` at `i > 0` is the
(lower-cased) scheme iff `url[0]` is an ASCII letter and every character of
`url[:i]` is a scheme character; otherwise the scheme is empty. -/
def urlsplit_scheme (url : String) : String :=
  match splitAtColon (removeUnsafeBytes url).toList with
  | none => ""
  | some (pre, _) =>
    if !pre.isEmpty && (pre.headD ' ').isAlpha && pre.all isSchemeChar then
      String.mk (pre.map Char.toLower)
    else ""

/-- `_parse_s3_endpoint_url`: prepend `"https://"` (via
`"://".join(("https", endpoint_url))`) when `urlparse` finds no scheme. -/
def _parse_s3_endpoint_url (endpoint_url : String) : String :=
  if urlsplit_scheme endpoint_url = "" then "https://" ++ endpoint_url
  else endpoint_url

/-- `get_mirror_s3_connection_info(mirror, method)`.  The source receives
either a `Mirror` instance or the empty dict `{}` (anonymous case) and
distinguishes them with `isinstance`; here that is an `Option Mirror`.
The token and access-pair blocks are independent `if` statements. -/
def get_mirror_s3_connection_info (env : Env) (mirror : Option Mirror)
    (method : String) : S3Connection × S3ClientArgs :=
  let s3_connection : S3Connection := {}
  let s3_client_args : S3ClientArgs := { use_ssl := env.verify_ssl }
  match mirror with
  | some m =>
    let access_token := m.get_access_token method
    let s3_connection :=
      if truthy access_token then
        { s3_connection with aws_session_token := access_token }
      else s3_connection
    let s3_connection :=
      match m.get_access_pair method with
      | some (k, s) =>
        if k ≠ "" && s ≠ "" then
          { s3_connection with
              aws_access_key_id := some k, aws_secret_access_key := some s }
        else s3_connection
      | none => s3_connection
    let s3_connection :=
      if truthy (m.get_profile method) then
        { s3_connection with profile_name := m.get_profile method }
      else s3_connection
    let endpoint_url := pyOr (m.get_endpoint_url method) env.s3_endpoint_url_env
    let s3_client_args :=
      if truthy endpoint_url then
        { s3_client_args with
            endpoint_url := some (_parse_s3_endpoint_url (endpoint_url.getD "")) }
      else s3_client_args
    (s3_connection, s3_client_args)
  | none =>
    let endpoint_url := env.s3_endpoint_url_env
    let s3_client_args :=
      if truthy endpoint_url then
        { s3_client_args with
            endpoint_url := some (_parse_s3_endpoint_url (endpoint_url.getD "")) }
      else s3_client_args
    (s3_connection, s3_client_args)

/-- The mirror-selection step of `get_s3_session`: filter the collection to
the entries whose URL for `method` is a prefix of the target, then take the
longest via Python `max` (first maximal on ties); `none` when no mirror
matches (`name, mirror = None, {}` in the source). -/
def select_mirror (env : Env) (url_str method : String) :
    Option (String × Mirror) :=
  pythonMaxBy (fun nm => (get_mirror_url method nm.2).length)
    (env.mirrors.filter (fun nm => pyStartsWith url_str (get_mirror_url method nm.2)))

/-- The cache key `(name, method)` of `get_s3_session`. -/
def session_key (env : Env) (url_str method : String) : Option String × String :=
  ((select_mirror env url_str method).map Prod.fst, method)

/-- The process-wide `s3_client_cache`, keyed by `(mirror name, method)`. -/
def S3ClientCache : Type := List ((Option String × String) × Client)

/-- `key in s3_client_cache` / `s3_client_cache[key]`. -/
def lookupCache : S3ClientCache → (Option String × String) → Option Client
  | [], _ => none
  | (k, c) :: rest, key => if k = key then some c else lookupCache rest key

/-- `get_s3_session(url, method)` after URL normalisation, with the global
cache passed explicitly.  Returns the client, the updated cache, and
whether a new client was constructed on this call. -/
def get_s3_session (env : Env) (url_str method : String)
    (cache : S3ClientCache) : Client × S3ClientCache × Bool :=
  let sel := select_mirror env url_str method
  let key := (sel.map Prod.fst, method)
  match lookupCache cache key with
  | some client => (client, cache, false)
  | none =>
    let (s3_connection, s3_client_args) :=
      get_mirror_s3_connection_info env (sel.map Prod.snd) method
    let s3_client_args :=
      if env.get_credentials s3_connection then s3_client_args
      else { s3_client_args with config_unsigned := true }
    let client : Client :=
      { s3_connection := s3_connection, s3_client_args := s3_client_args }
    (client, (key, client) :: cache, true)

/-- The `s3_connection` dict that `get_s3_session` derives for a target URL:
the first component of `get_mirror_s3_connection_info` applied to the
selected mirror (or to the anonymous pseudo-entry). -/
def resolved_connection (env : Env) (url_str method : String) : S3Connection :=
  (get_mirror_s3_connection_info env
    ((select_mirror env url_str method).map Prod.snd) method).1

/-- The `s3_client_args` dict that `get_s3_session` passes to
`session.client`, including the unsigned override applied when
`session.get_credentials()` yields nothing. -/
def resolved_client_args (env : Env) (url_str method : String) : S3ClientArgs :=
  let s3_client_args :=
    (get_mirror_s3_connection_info env
      ((select_mirror env url_str method).map Prod.snd) method).2
  if env.get_credentials (resolved_connection env url_str method) then s3_client_args
  else { s3_client_args with config_unsigned := true }

/-- The client `get_s3_session` constructs on a cache miss. -/
def constructed_client (env : Env) (url_str method : String) : Client :=
  { s3_connection := resolved_connection env url_str method,
    s3_client_args := resolved_client_args env url_str method }

/-! Concrete inputs used to instantiate the theorems below. -/

/-- A mirror with no credentials, as in the spec's worked example. -/
def mirrorA : Mirror :=
  { fetch_url := "https://x/bucket"
    push_url := "https://x/bucket"
    get_access_token := fun _ => none
    get_access_pair := fun _ => none
    get_profile := fun _ => none
    get_endpoint_url := fun _ => none }

/-- The more specific sub-bucket mirror of the spec's worked example. -/
def mirrorB : Mirror :=
  { mirrorA with
      fetch_url := "https://x/bucket/sub", push_url := "https://x/bucket/sub" }

/-- A mirror configuring both an access token and a complete access pair. -/
def mirrorTokenPair : Mirror :=
  { mirrorA with
      get_access_token := fun _ => some "token123"
      get_access_pair := fun _ => some ("AKID", "SECRET") }

/-- A mirror configuring only a credential profile. -/
def mirrorProfile : Mirror :=
  { mirrorA with get_profile := fun _ => some "prod" }

/-- A mirror configuring only an endpoint URL. -/
def mirrorEndpoint : Mirror :=
  { mirrorA with get_endpoint_url := fun _ => some "s3.example.com" }

/-- The spec's worked example: mirrors `a` and `b` with nested fetch URLs. -/
def envAB : Env :=
  { mirrors := [("a", mirrorA), ("b", mirrorB)]
    verify_ssl := true
    s3_endpoint_url_env := none
    get_credentials := fun _ => false }

/-- Two mirrors whose fetch URLs are equal-length matches (a tie). -/
def envTie : Env :=
  { mirrors := [("a", mirrorA), ("a2", mirrorA)]
    verify_ssl := true
    s3_endpoint_url_env := none
    get_credentials := fun _ => false }

/-- An environment with `S3_ENDPOINT_URL` set. -/
def envEndpoint : Env :=
  { mirrors := [("e", mirrorEndpoint)]
    verify_ssl := true
    s3_endpoint_url_env := some "env.example.com"
    get_credentials := fun _ => true }

/-! ## Theorems -/

/-- The left fold underlying `pythonMaxBy` either keeps the seed (when no
element has a strictly greater key) or returns the first element of the
list attaining the maximum key. -/
theorem foldl_pymax_spec {α : Type} (f : α → Nat) (xs : List α) (a : α) :
    (xs.foldl (fun acc y => if f acc < f y then y else acc) a = a ∧
      ∀ y ∈ xs, f y ≤ f a) ∨
    (∃ l₁ r l₂, xs = l₁ ++ r :: l₂ ∧
      xs.foldl (fun acc y => if f acc < f y then y else acc) a = r ∧
      f a < f r ∧ (∀ y ∈ l₁, f y < f r) ∧ (∀ y ∈ l₂, f y ≤ f r)) := by
  induction xs generalizing a with
  | nil => exact Or.inl ⟨rfl, by simp⟩
  | cons y ys ih =>
    simp only [List.foldl_cons]
    by_cases hy : f a < f y
    · simp only [if_pos hy]
      rcases ih y with ⟨heq, hle⟩ | ⟨l₁, r, l₂, hsplit, heq, hlt, h₁, h₂⟩
      · exact Or.inr ⟨[], y, ys, by simp, heq, hy, by simp, hle⟩
      · refine Or.inr ⟨y :: l₁, r, l₂, by simp [hsplit], heq, lt_trans hy hlt, ?_, h₂⟩
        intro z hz
        rcases List.mem_cons.mp hz with rfl | hz
        · exact hlt
        · exact h₁ z hz
    · simp only [if_neg hy]
      rcases ih a with ⟨heq, hle⟩ | ⟨l₁, r, l₂, hsplit, heq, hlt, h₁, h₂⟩
      · refine Or.inl ⟨heq, ?_⟩
        intro z hz
        rcases List.mem_cons.mp hz with rfl | hz
        · omega
        · exact hle z hz
      · refine Or.inr ⟨y :: l₁, r, l₂, by simp [hsplit], heq, hlt, ?_, h₂⟩
        intro z hz
        rcases List.mem_cons.mp hz with rfl | hz
        · omega
        · exact h₁ z hz

/-- `pythonMaxBy` on a nonempty list returns the first maximal element:
the list splits as `l₁ ++ r :: l₂` with every key in `l₁` strictly below
`f r` and every key in `l₂` at most `f r`. -/
theorem pythonMaxBy_cons_spec {α : Type} (f : α → Nat) (x : α) (xs : List α) :
    ∃ l₁ r l₂, x :: xs = l₁ ++ r :: l₂ ∧ pythonMaxBy f (x :: xs) = some r ∧
      (∀ y ∈ l₁, f y < f r) ∧ (∀ y ∈ l₂, f y ≤ f r) := by
  rcases foldl_pymax_spec f xs x with ⟨heq, hle⟩ | ⟨l₁, r, l₂, hsplit, heq, hlt, h₁, h₂⟩
  · exact ⟨[], x, xs, by simp, by simp [pythonMaxBy, heq], by simp, hle⟩
  · refine ⟨x :: l₁, r, l₂, by simp [hsplit], by simp [pythonMaxBy, heq], ?_, h₂⟩
    intro z hz
    rcases List.mem_cons.mp hz with rfl | hz
    · exact hlt
    · exact h₁ z hz

/-- C1: whenever at least one configured mirror's intent-specific URL
(fetch URL for `method = "fetch"`, push URL otherwise) is a string prefix
of the target URL, the selection step of `get_s3_session` picks a
configured, prefix-matching mirror whose intent URL has maximal length
among all prefix-matching mirrors, and the cache key of `get_s3_session`
is built from that mirror's name; a mirror whose intent URL is not a
prefix is never selected. -/
theorem get_s3_session_selects_longest_matching_mirror
    (env : Env) (url_str method : String)
    (h : ∃ nm ∈ env.mirrors, pyStartsWith url_str (get_mirror_url method nm.2) = true) :
    ∃ sel ∈ env.mirrors,
      select_mirror env url_str method = some sel ∧
      session_key env url_str method = (some sel.1, method) ∧
      pyStartsWith url_str (get_mirror_url method sel.2) = true ∧
      ∀ nm ∈ env.mirrors, pyStartsWith url_str (get_mirror_url method nm.2) = true →
        (get_mirror_url method nm.2).length ≤ (get_mirror_url method sel.2).length := by
  obtain ⟨nm, hmem, hpre⟩ := h
  have hmemf : nm ∈ env.mirrors.filter
      (fun p => pyStartsWith url_str (get_mirror_url method p.2)) :=
    List.mem_filter.mpr ⟨hmem, hpre⟩
  cases hms : env.mirrors.filter
      (fun p => pyStartsWith url_str (get_mirror_url method p.2)) with
  | nil => rw [hms] at hmemf; cases hmemf
  | cons x xs =>
    obtain ⟨l₁, r, l₂, hsplit, hmax, h₁, h₂⟩ :=
      pythonMaxBy_cons_spec (fun p => (get_mirror_url method p.2).length) x xs
    have hrf : r ∈ env.mirrors.filter
        (fun p => pyStartsWith url_str (get_mirror_url method p.2)) := by
      rw [hms, hsplit]
      exact List.mem_append_right _ (List.mem_cons_self _ _)
    have hsel : select_mirror env url_str method = some r := by
      rw [select_mirror, hms, hmax]
    refine ⟨r, (List.mem_filter.mp hrf).1, hsel, ?_, (List.mem_filter.mp hrf).2, ?_⟩
    · rw [session_key, hsel]; rfl
    · intro p hp hppre
      have hpf : p ∈ x :: xs := by
        rw [← hms]; exact List.mem_filter.mpr ⟨hp, hppre⟩
      rw [hsplit] at hpf
      rcases List.mem_append.mp hpf with hin | hin
      · exact le_of_lt (h₁ p hin)
      · rcases List.mem_cons.mp hin with rfl | hin
        · exact le_refl _
        · exact h₂ p hin

/-- C1 witness: in the spec's worked example the selection at
`https://x/bucket/sub/file.txt` with intent fetch yields a matching mirror
of maximal URL length. -/
theorem get_s3_session_selects_longest_matching_mirror_witness :
    ∃ sel ∈ envAB.mirrors,
      select_mirror envAB "https://x/bucket/sub/file.txt" "fetch" = some sel ∧
      session_key envAB "https://x/bucket/sub/file.txt" "fetch" = (some sel.1, "fetch") ∧
      pyStartsWith "https://x/bucket/sub/file.txt" (get_mirror_url "fetch" sel.2) = true ∧
      ∀ nm ∈ envAB.mirrors,
        pyStartsWith "https://x/bucket/sub/file.txt" (get_mirror_url "fetch" nm.2) = true →
          (get_mirror_url "fetch" nm.2).length ≤ (get_mirror_url "fetch" sel.2).length :=
  get_s3_session_selects_longest_matching_mirror envAB
    "https://x/bucket/sub/file.txt" "fetch"
    ⟨("a", mirrorA), by simp [envAB], by decide⟩

/-- C9: on the filtered list of prefix-matching mirrors, Python's `max`
deterministically returns the first element attaining the maximal
intent-URL length in iteration order: the filtered list splits as
`l₁ ++ sel :: l₂` where every entry of `l₁` is strictly shorter and every
entry of `l₂` no longer than `sel`.  Selection is a pure function of the
inputs, so two runs over the same configuration select the same mirror. -/
theorem select_mirror_first_maximal (env : Env) (url_str method : String)
    (h : env.mirrors.filter
      (fun nm => pyStartsWith url_str (get_mirror_url method nm.2)) ≠ []) :
    ∃ l₁ sel l₂,
      env.mirrors.filter
        (fun nm => pyStartsWith url_str (get_mirror_url method nm.2)) =
          l₁ ++ sel :: l₂ ∧
      select_mirror env url_str method = some sel ∧
      (∀ nm ∈ l₁,
        (get_mirror_url method nm.2).length < (get_mirror_url method sel.2).length) ∧
      (∀ nm ∈ l₂,
        (get_mirror_url method nm.2).length ≤ (get_mirror_url method sel.2).length) := by
  cases hms : env.mirrors.filter
      (fun nm => pyStartsWith url_str (get_mirror_url method nm.2)) with
  | nil => exact absurd hms h
  | cons x xs =>
    obtain ⟨l₁, r, l₂, hsplit, hmax, h₁, h₂⟩ :=
      pythonMaxBy_cons_spec (fun p => (get_mirror_url method p.2).length) x xs
    exact ⟨l₁, r, l₂, hsplit, by rw [select_mirror, hms, hmax], h₁, h₂⟩

/-- C9 witness: with two equal-length matching mirrors configured, the
first-maximal decomposition holds at a concrete input. -/
theorem select_mirror_first_maximal_witness :
    ∃ l₁ sel l₂,
      envTie.mirrors.filter
        (fun nm => pyStartsWith "https://x/bucket/file.txt" (get_mirror_url "fetch" nm.2)) =
          l₁ ++ sel :: l₂ ∧
      select_mirror envTie "https://x/bucket/file.txt" "fetch" = some sel ∧
      (∀ nm ∈ l₁,
        (get_mirror_url "fetch" nm.2).length < (get_mirror_url "fetch" sel.2).length) ∧
      (∀ nm ∈ l₂,
        (get_mirror_url "fetch" nm.2).length ≤ (get_mirror_url "fetch" sel.2).length) :=
  select_mirror_first_maximal envTie "https://x/bucket/file.txt" "fetch"
    (fun hc => List.noConfusion hc)

/-- A key that `lookupCache` does not find is not among the cached keys. -/
theorem lookupCache_none_not_mem (cache : S3ClientCache) (key : Option String × String)
    (h : lookupCache cache key = none) : key ∉ cache.map Prod.fst := by
  induction cache with
  | nil => simp
  | cons e rest ih =>
    rw [lookupCache] at h
    by_cases he : e.1 = key
    · rw [if_pos he] at h; cases h
    · rw [if_neg he] at h
      simp only [List.map_cons, List.mem_cons]
      rintro (rfl | hmem)
      · exact he rfl
      · exact ih h hmem

/-- On a cache hit, `get_s3_session` returns the cached client, the cache
unchanged, and constructs nothing. -/
theorem get_s3_session_hit (env : Env) (url_str method : String)
    (cache : S3ClientCache) (c : Client)
    (h : lookupCache cache (session_key env url_str method) = some c) :
    get_s3_session env url_str method cache = (c, cache, false) := by
  have h' : lookupCache cache ((select_mirror env url_str method).map Prod.fst, method) =
      some c := h
  simp only [get_s3_session, h']

/-- On a cache miss, `get_s3_session` constructs `constructed_client`,
stores it under the session key, and reports the construction. -/
theorem get_s3_session_miss (env : Env) (url_str method : String)
    (cache : S3ClientCache)
    (h : lookupCache cache (session_key env url_str method) = none) :
    get_s3_session env url_str method cache =
      (constructed_client env url_str method,
        (session_key env url_str method, constructed_client env url_str method) :: cache,
        true) := by
  have h' : lookupCache cache ((select_mirror env url_str method).map Prod.fst, method) =
      none := h
  simp only [get_s3_session, h']
  rfl

/-- After any call, the session key maps to the returned client. -/
theorem get_s3_session_lookup (env : Env) (url_str method : String)
    (cache : S3ClientCache) :
    lookupCache (get_s3_session env url_str method cache).2.1
        (session_key env url_str method) =
      some (get_s3_session env url_str method cache).1 := by
  cases hc : lookupCache cache (session_key env url_str method) with
  | some c => rw [get_s3_session_hit env url_str method cache c hc]; exact hc
  | none =>
    rw [get_s3_session_miss env url_str method cache hc]
    simp [lookupCache]

/-- C3: when two calls resolve to the same cache key `(mirror name,
method)`, the second call returns exactly the client cached by the first,
leaves the cache unchanged and constructs no new client — even when the
mirror configuration (`env₂`) differs from the first call's; moreover a
call never replaces an existing entry, so a cache with distinct keys keeps
at most one client per key. -/
theorem get_s3_session_cached_second_call
    (env₁ env₂ : Env) (url₁ url₂ method₁ method₂ : String) (cache : S3ClientCache)
    (hkey : session_key env₁ url₁ method₁ = session_key env₂ url₂ method₂) :
    (get_s3_session env₂ url₂ method₂ (get_s3_session env₁ url₁ method₁ cache).2.1).1 =
      (get_s3_session env₁ url₁ method₁ cache).1 ∧
    (get_s3_session env₂ url₂ method₂ (get_s3_session env₁ url₁ method₁ cache).2.1).2.1 =
      (get_s3_session env₁ url₁ method₁ cache).2.1 ∧
    (get_s3_session env₂ url₂ method₂ (get_s3_session env₁ url₁ method₁ cache).2.1).2.2 =
      false ∧
    ((cache.map Prod.fst).Nodup →
      (((get_s3_session env₁ url₁ method₁ cache).2.1).map Prod.fst).Nodup) := by
  have hl : lookupCache (get_s3_session env₁ url₁ method₁ cache).2.1
      (session_key env₂ url₂ method₂) =
      some (get_s3_session env₁ url₁ method₁ cache).1 := by
    rw [← hkey]; exact get_s3_session_lookup env₁ url₁ method₁ cache
  have hhit := get_s3_session_hit env₂ url₂ method₂
    (get_s3_session env₁ url₁ method₁ cache).2.1
    (get_s3_session env₁ url₁ method₁ cache).1 hl
  refine ⟨by rw [hhit], by rw [hhit], by rw [hhit], ?_⟩
  intro hnodup
  cases hc : lookupCache cache (session_key env₁ url₁ method₁) with
  | some c => rw [get_s3_session_hit env₁ url₁ method₁ cache c hc]; exact hnodup
  | none =>
    rw [get_s3_session_miss env₁ url₁ method₁ cache hc]
    simp only [List.map_cons, List.nodup_cons]
    exact ⟨lookupCache_none_not_mem cache _ hc, hnodup⟩

/-- C3 witness: two identical calls on the empty cache; the second returns
the client the first cached, without constructing a new one. -/
theorem get_s3_session_cached_second_call_witness :
    (get_s3_session envAB "https://x/bucket/sub/file.txt" "fetch"
        (get_s3_session envAB "https://x/bucket/sub/file.txt" "fetch" []).2.1).1 =
      (get_s3_session envAB "https://x/bucket/sub/file.txt" "fetch" []).1 ∧
    (get_s3_session envAB "https://x/bucket/sub/file.txt" "fetch"
        (get_s3_session envAB "https://x/bucket/sub/file.txt" "fetch" []).2.1).2.1 =
      (get_s3_session envAB "https://x/bucket/sub/file.txt" "fetch" []).2.1 ∧
    (get_s3_session envAB "https://x/bucket/sub/file.txt" "fetch"
        (get_s3_session envAB "https://x/bucket/sub/file.txt" "fetch" []).2.1).2.2 =
      false ∧
    ((([] : S3ClientCache).map Prod.fst).Nodup →
      (((get_s3_session envAB "https://x/bucket/sub/file.txt" "fetch" []).2.1).map
        Prod.fst).Nodup) :=
  get_s3_session_cached_second_call envAB envAB
    "https://x/bucket/sub/file.txt" "https://x/bucket/sub/file.txt" "fetch" "fetch" [] rfl

/-- Field-wise computation of the `s3_connection` dict built by
`get_mirror_s3_connection_info` for a real mirror entry: the token, the
access pair and the profile are each included exactly under their own
truthiness condition, independently of one another. -/
theorem info_connection_fields (env : Env) (m : Mirror) (method : String) :
    (get_mirror_s3_connection_info env (some m) method).1 =
      { aws_session_token :=
          if truthy (m.get_access_token method) then m.get_access_token method else none
        aws_access_key_id :=
          match m.get_access_pair method with
          | some (k, s) => if k ≠ "" && s ≠ "" then some k else none
          | none => none
        aws_secret_access_key :=
          match m.get_access_pair method with
          | some (k, s) => if k ≠ "" && s ≠ "" then some s else none
          | none => none
        profile_name :=
          if truthy (m.get_profile method) then m.get_profile method else none } := by
  simp only [get_mirror_s3_connection_info]
  rcases hp : m.get_access_pair method with _ | ⟨k, s⟩
  · by_cases h1 : truthy (m.get_access_token method) <;>
      by_cases h3 : truthy (m.get_profile method) <;>
      simp [h1, h3, hp]
  · by_cases h1 : truthy (m.get_access_token method) <;>
      by_cases h3 : truthy (m.get_profile method) <;>
      by_cases hk : k = "" <;>
      by_cases hs : s = "" <;>
      simp [h1, h3, hp, hk, hs]

/-- The `s3_client_args` dict built for a real mirror entry: TLS flag from
global config, endpoint from the mirror's endpoint for this method with the
environment variable as fallback, no unsigned override. -/
theorem info_client_args_mirror (env : Env) (m : Mirror) (method : String) :
    (get_mirror_s3_connection_info env (some m) method).2 =
      { use_ssl := env.verify_ssl
        endpoint_url :=
          if truthy (pyOr (m.get_endpoint_url method) env.s3_endpoint_url_env) then
            some (_parse_s3_endpoint_url
              ((pyOr (m.get_endpoint_url method) env.s3_endpoint_url_env).getD ""))
          else none
        config_unsigned := false } := by
  simp only [get_mirror_s3_connection_info]
  by_cases h : truthy (pyOr (m.get_endpoint_url method) env.s3_endpoint_url_env) <;>
    simp [h]

/-- The `s3_client_args` dict built for the anonymous pseudo-entry: the
environment-variable endpoint fallback still applies. -/
theorem info_client_args_anonymous (env : Env) (method : String) :
    (get_mirror_s3_connection_info env none method).2 =
      { use_ssl := env.verify_ssl
        endpoint_url :=
          if truthy env.s3_endpoint_url_env then
            some (_parse_s3_endpoint_url (env.s3_endpoint_url_env.getD ""))
          else none
        config_unsigned := false } := by
  simp only [get_mirror_s3_connection_info]
  by_cases h : truthy env.s3_endpoint_url_env <;> simp [h]

/-- `get_mirror_s3_connection_info` never sets the unsigned override. -/
theorem info_config_unsigned (env : Env) (mirror : Option Mirror) (method : String) :
    (get_mirror_s3_connection_info env mirror method).2.config_unsigned = false := by
  cases mirror with
  | none => rw [info_client_args_anonymous]
  | some m => rw [info_client_args_mirror]

/-- C2 counterexample: a mirror configuring both an access token and a
complete access pair gets all three credential fields included — the two
`if` blocks in the source are independent, so the key pair is not included
"only when no access token is configured". -/
theorem connection_info_includes_token_and_pair_together :
    truthy (mirrorTokenPair.get_access_token "fetch") = true ∧
    (get_mirror_s3_connection_info envAB (some mirrorTokenPair) "fetch").1.aws_session_token =
      some "token123" ∧
    (get_mirror_s3_connection_info envAB (some mirrorTokenPair) "fetch").1.aws_access_key_id =
      some "AKID" ∧
    (get_mirror_s3_connection_info envAB (some mirrorTokenPair) "fetch").1.aws_secret_access_key =
      some "SECRET" := by
  refine ⟨by decide, ?_, ?_, ?_⟩ <;>
    rw [info_connection_fields] <;> decide

/-- C2 (amended): the token is included whenever configured, and the key
pair is included whenever both components are non-empty — each condition is
checked independently, so both credentials can be included together. -/
theorem connection_info_token_and_pair_independent
    (env : Env) (m : Mirror) (method : String) :
    (truthy (m.get_access_token method) = true →
      (get_mirror_s3_connection_info env (some m) method).1.aws_session_token =
        m.get_access_token method) ∧
    (∀ k s, m.get_access_pair method = some (k, s) → k ≠ "" → s ≠ "" →
      (get_mirror_s3_connection_info env (some m) method).1.aws_access_key_id = some k ∧
      (get_mirror_s3_connection_info env (some m) method).1.aws_secret_access_key = some s) := by
  refine ⟨fun htok => ?_, fun k s hp hk hs => ⟨?_, ?_⟩⟩ <;>
    rw [info_connection_fields] <;> simp_all

/-- C2 (amended) witness: the token-and-pair mirror gets the token and both
key-pair components included. -/
theorem connection_info_token_and_pair_independent_witness :
    (get_mirror_s3_connection_info envAB (some mirrorTokenPair) "fetch").1.aws_session_token =
      mirrorTokenPair.get_access_token "fetch" ∧
    (get_mirror_s3_connection_info envAB (some mirrorTokenPair) "fetch").1.aws_access_key_id =
      some "AKID" ∧
    (get_mirror_s3_connection_info envAB (some mirrorTokenPair) "fetch").1.aws_secret_access_key =
      some "SECRET" :=
  ⟨(connection_info_token_and_pair_independent envAB mirrorTokenPair "fetch").1 (by decide),
   ((connection_info_token_and_pair_independent envAB mirrorTokenPair "fetch").2
      "AKID" "SECRET" rfl (by decide) (by decide)).1,
   ((connection_info_token_and_pair_independent envAB mirrorTokenPair "fetch").2
      "AKID" "SECRET" rfl (by decide) (by decide)).2⟩

/-- C4: when no configured mirror's intent URL is a prefix of the target
URL, `get_s3_session` proceeds on the anonymous path (the function is
total, so no error is raised): no mirror is selected and the derived
session parameters contain no session token, no access-key pair and no
profile; the client constructed on a fresh cache carries that anonymous
connection. -/
theorem get_s3_session_no_match_anonymous (env : Env) (url_str method : String)
    (h : ∀ nm ∈ env.mirrors, pyStartsWith url_str (get_mirror_url method nm.2) = false) :
    select_mirror env url_str method = none ∧
    resolved_connection env url_str method =
      { aws_session_token := none, aws_access_key_id := none,
        aws_secret_access_key := none, profile_name := none } ∧
    (get_s3_session env url_str method []).1.s3_connection =
      { aws_session_token := none, aws_access_key_id := none,
        aws_secret_access_key := none, profile_name := none } := by
  have hfil : env.mirrors.filter
      (fun nm => pyStartsWith url_str (get_mirror_url method nm.2)) = [] := by
    rw [List.filter_eq_nil_iff]
    intro a ha
    simp [h a ha]
  have hsel : select_mirror env url_str method = none := by
    rw [select_mirror, hfil]; rfl
  have hconn : resolved_connection env url_str method =
      { aws_session_token := none, aws_access_key_id := none,
        aws_secret_access_key := none, profile_name := none } := by
    simp only [resolved_connection, hsel]
    rfl
  refine ⟨hsel, hconn, ?_⟩
  rw [get_s3_session_miss env url_str method [] rfl]
  exact hconn

/-- C4 witness: a URL matched by no configured mirror yields the anonymous
connection parameters. -/
theorem get_s3_session_no_match_anonymous_witness :
    select_mirror envAB "ftp://elsewhere/file" "fetch" = none ∧
    resolved_connection envAB "ftp://elsewhere/file" "fetch" =
      { aws_session_token := none, aws_access_key_id := none,
        aws_secret_access_key := none, profile_name := none } ∧
    (get_s3_session envAB "ftp://elsewhere/file" "fetch" []).1.s3_connection =
      { aws_session_token := none, aws_access_key_id := none,
        aws_secret_access_key := none, profile_name := none } :=
  get_s3_session_no_match_anonymous envAB "ftp://elsewhere/file" "fetch" (by decide)

/-- C6: on a cache miss, the constructed client's `config` is the unsigned
override exactly when the session resolves no credentials
(`session.get_credentials()` yields nothing); when credentials resolve, no
unsigned override is added. -/
theorem get_s3_session_unsigned_iff_no_credentials (env : Env) (url_str method : String)
    (cache : S3ClientCache)
    (hmiss : lookupCache cache (session_key env url_str method) = none) :
    (get_s3_session env url_str method cache).1.s3_client_args.config_unsigned =
      !env.get_credentials (resolved_connection env url_str method) := by
  rw [get_s3_session_miss env url_str method cache hmiss]
  show (resolved_client_args env url_str method).config_unsigned = _
  rw [resolved_client_args]
  cases hg : env.get_credentials (resolved_connection env url_str method) with
  | true => simp [info_config_unsigned]
  | false => simp

/-- C6 witness: with no credentials resolvable, the client constructed on
the empty cache carries the unsigned override. -/
theorem get_s3_session_unsigned_iff_no_credentials_witness :
    (get_s3_session envAB "https://x/bucket/sub/file.txt" "fetch"
        []).1.s3_client_args.config_unsigned =
      !envAB.get_credentials
        (resolved_connection envAB "https://x/bucket/sub/file.txt" "fetch") :=
  get_s3_session_unsigned_iff_no_credentials envAB
    "https://x/bucket/sub/file.txt" "fetch" [] rfl

/-- C7: the endpoint in the client options is the mirror's intent-specific
endpoint when configured (truthy), else the `S3_ENDPOINT_URL` environment
variable when set; the fallback also applies on the anonymous path; when
neither is set no endpoint option is included.  The endpoint is passed
through `_parse_s3_endpoint_url` before use. -/
theorem connection_info_endpoint_resolution (env : Env) (m : Mirror) (method : String) :
    (∀ e, m.get_endpoint_url method = some e → e ≠ "" →
      (get_mirror_s3_connection_info env (some m) method).2.endpoint_url =
        some (_parse_s3_endpoint_url e)) ∧
    (truthy (m.get_endpoint_url method) = false →
      ∀ e, env.s3_endpoint_url_env = some e → e ≠ "" →
        (get_mirror_s3_connection_info env (some m) method).2.endpoint_url =
          some (_parse_s3_endpoint_url e)) ∧
    (∀ e, env.s3_endpoint_url_env = some e → e ≠ "" →
      (get_mirror_s3_connection_info env none method).2.endpoint_url =
        some (_parse_s3_endpoint_url e)) ∧
    (truthy (m.get_endpoint_url method) = false →
      truthy env.s3_endpoint_url_env = false →
      (get_mirror_s3_connection_info env (some m) method).2.endpoint_url = none) ∧
    (truthy env.s3_endpoint_url_env = false →
      (get_mirror_s3_connection_info env none method).2.endpoint_url = none) := by
  refine ⟨fun e he hne => ?_, fun hm e he hne => ?_, fun e he hne => ?_,
    fun hm henv => ?_, fun henv => ?_⟩
  · rw [info_client_args_mirror]
    simp [pyOr, truthy, he, hne]
  · rw [info_client_args_mirror]
    have hpe : pyOr (m.get_endpoint_url method) env.s3_endpoint_url_env = some e := by
      simp [pyOr, hm, he]
    simp [hpe, truthy, hne]
  · rw [info_client_args_anonymous]
    simp [truthy, he, hne]
  · rw [info_client_args_mirror]
    simp [pyOr, hm, henv]
  · rw [info_client_args_anonymous]
    simp [henv]

/-- C7 witness: a mirror endpoint wins over the environment variable; on
the anonymous path the environment variable is used. -/
theorem connection_info_endpoint_resolution_witness :
    (get_mirror_s3_connection_info envEndpoint (some mirrorEndpoint) "fetch").2.endpoint_url =
      some (_parse_s3_endpoint_url "s3.example.com") ∧
    (get_mirror_s3_connection_info envEndpoint none "fetch").2.endpoint_url =
      some (_parse_s3_endpoint_url "env.example.com") :=
  ⟨(connection_info_endpoint_resolution envEndpoint mirrorEndpoint "fetch").1
      "s3.example.com" rfl (by decide),
   (connection_info_endpoint_resolution envEndpoint mirrorEndpoint "fetch").2.2.1
      "env.example.com" rfl (by decide)⟩

/-- C8: a mirror with only a profile configured (no truthy token, no
complete access pair) yields session parameters with exactly the profile
set and no token or key-pair fields. -/
theorem connection_info_profile_only (env : Env) (m : Mirror) (method : String)
    (htok : truthy (m.get_access_token method) = false)
    (hpair : ∀ k s, m.get_access_pair method = some (k, s) → k = "" ∨ s = "")
    (hprof : truthy (m.get_profile method) = true) :
    (get_mirror_s3_connection_info env (some m) method).1 =
      { aws_session_token := none, aws_access_key_id := none,
        aws_secret_access_key := none, profile_name := m.get_profile method } := by
  rw [info_connection_fields]
  rcases hp : m.get_access_pair method with _ | ⟨k, s⟩
  · simp [htok, hprof]
  · rcases hpair k s hp with rfl | rfl <;> simp [htok, hprof]

/-- C8 witness: the profile-only mirror yields exactly the profile. -/
theorem connection_info_profile_only_witness :
    (get_mirror_s3_connection_info envAB (some mirrorProfile) "fetch").1 =
      { aws_session_token := none, aws_access_key_id := none,
        aws_secret_access_key := none, profile_name := mirrorProfile.get_profile "fetch" } :=
  connection_info_profile_only envAB mirrorProfile "fetch" rfl
    (fun _ _ h => Option.noConfusion h) (by decide)

/-- C5: `_parse_s3_endpoint_url` prepends `https://` exactly when the
endpoint string has no explicit URI scheme (as detected by `urlparse`),
and returns a string with an explicit scheme unchanged. -/
theorem parse_s3_endpoint_url_normalization (endpoint_url : String) :
    (urlsplit_scheme endpoint_url = "" →
      _parse_s3_endpoint_url endpoint_url = "https://" ++ endpoint_url) ∧
    (urlsplit_scheme endpoint_url ≠ "" →
      _parse_s3_endpoint_url endpoint_url = endpoint_url) := by
  constructor <;> intro h <;> simp [_parse_s3_endpoint_url, h]

/-- C5 witness: `s3.example.com` is normalized to
`https://s3.example.com`; an endpoint with an explicit scheme passes
through unchanged. -/
theorem parse_s3_endpoint_url_normalization_witness :
    _parse_s3_endpoint_url "s3.example.com" = "https://s3.example.com" ∧
    _parse_s3_endpoint_url "http://s3.example.com" = "http://s3.example.com" :=
  ⟨(parse_s3_endpoint_url_normalization "s3.example.com").1 (by decide),
   (parse_s3_endpoint_url_normalization "http://s3.example.com").2 (by decide)⟩

/-- C10 counterexample: the host `3m` consists only of scheme characters,
yet `_parse_s3_endpoint_url "3m:9000"` is not returned unchanged —
CPython's `urlsplit` additionally requires the first character of a scheme
to be an ASCII letter, so `https://` is prepended. -/
theorem parse_s3_endpoint_url_digit_host_changed :
    "3m".toList.all isSchemeChar = true ∧
    _parse_s3_endpoint_url "3m:9000" = "https://3m:9000" ∧
    _parse_s3_endpoint_url "3m:9000" ≠ "3m:9000" := by
  decide

/-- A scheme character is not one of the removed unsafe bytes. -/
theorem isSchemeChar_kept_byte (c : Char) (h : isSchemeChar c = true) :
    isUnsafeUrlByte c = false := by
  cases hu : isUnsafeUrlByte c
  · rfl
  · exfalso
    simp only [isUnsafeUrlByte, Bool.or_eq_true, decide_eq_true_eq] at hu
    have hu' : c = '\t' ∨ c = '\r' ∨ c = '\n' := by tauto
    rcases hu' with rfl | rfl | rfl <;> exact absurd h (by decide)

/-- A scheme character is not a colon. -/
theorem isSchemeChar_ne_colon (c : Char) (h : isSchemeChar c = true) : c ≠ ':' := by
  rintro rfl
  exact absurd h (by decide)

/-- `splitAtColon` splits at the first colon. -/
theorem splitAtColon_append (l₁ l₂ : List Char) (h : ∀ c ∈ l₁, c ≠ ':') :
    splitAtColon (l₁ ++ ':' :: l₂) = some (l₁, l₂) := by
  induction l₁ with
  | nil => simp [splitAtColon]
  | cons c cs ih =>
    have hc : c ≠ ':' := h c (List.mem_cons_self c cs)
    simp only [List.cons_append, splitAtColon, if_neg hc, List.append_eq,
      ih (fun x hx => h x (List.mem_cons_of_mem c hx))]

/-- Unsafe-byte removal keeps a list of scheme characters intact. -/
theorem filter_unsafe_eq_self_of_schemeChars (l : List Char)
    (h : l.all isSchemeChar = true) :
    l.filter (fun c => !isUnsafeUrlByte c) = l := by
  rw [List.filter_eq_self]
  intro a ha
  rw [isSchemeChar_kept_byte a (List.all_eq_true.mp h a ha)]
  rfl

/-- C10 (amended): an endpoint of the form `host:rest` is returned
unchanged by `_parse_s3_endpoint_url` when the host part is nonempty,
starts with an ASCII letter, and consists only of URI-scheme characters
(letters, digits, `.`, `+`, `-`): `urlsplit` then parses the host as a URI
scheme, so no `https://` is prepended even though the string names no
transport scheme.  Hosts not starting with an ASCII letter do not qualify
(see the counterexample). -/
theorem parse_s3_endpoint_url_host_port_unchanged (host rest : String)
    (hne : host.toList ≠ [])
    (halpha : (host.toList.headD ' ').isAlpha = true)
    (hchars : host.toList.all isSchemeChar = true) :
    _parse_s3_endpoint_url (host ++ ":" ++ rest) = host ++ ":" ++ rest := by
  have hcolon : ∀ c ∈ host.toList, c ≠ ':' := fun c hc =>
    isSchemeChar_ne_colon c (List.all_eq_true.mp hchars c hc)
  have h1 : (host ++ ":" ++ rest).data = host.data ++ ':' :: rest.data := by
    rw [String.data_append, String.data_append, List.append_assoc]
    rfl
  have hfil : (removeUnsafeBytes (host ++ ":" ++ rest)).toList =
      host.toList ++ ':' :: rest.toList.filter (fun c => !isUnsafeUrlByte c) := by
    show (host ++ ":" ++ rest).data.filter (fun c => !isUnsafeUrlByte c) =
      host.data ++ ':' :: rest.data.filter (fun c => !isUnsafeUrlByte c)
    rw [h1, List.filter_append,
      filter_unsafe_eq_self_of_schemeChars host.data hchars,
      List.filter_cons_of_pos (by decide)]
  have hempty : host.toList.isEmpty = false := by
    cases hl : host.toList with
    | nil => exact absurd hl hne
    | cons a l => rfl
  have hcond : (!host.toList.isEmpty && (host.toList.headD ' ').isAlpha &&
      host.toList.all isSchemeChar) = true := by
    rw [hempty, halpha, hchars]
    rfl
  have hscheme : urlsplit_scheme (host ++ ":" ++ rest) =
      String.mk (host.toList.map Char.toLower) := by
    rw [urlsplit_scheme, hfil, splitAtColon_append _ _ hcolon]
    simp only [hcond, eq_self_iff_true, if_true]
  have hnsch : urlsplit_scheme (host ++ ":" ++ rest) ≠ "" := by
    rw [hscheme]
    intro hcontra
    exact hne (List.map_eq_nil_iff.mp (congrArg String.data hcontra))
  simp [_parse_s3_endpoint_url, hnsch]

/-- C10 (amended) witness: `s3.example.com:9000` is returned unchanged. -/
theorem parse_s3_endpoint_url_host_port_unchanged_witness :
    _parse_s3_endpoint_url ("s3.example.com" ++ ":" ++ "9000") =
      "s3.example.com" ++ ":" ++ "9000" :=
  parse_s3_endpoint_url_host_port_unchanged "s3.example.com" "9000"
    (by decide) (by decide) (by decide)

end Spack.S3
